import Mathlib

/-!
Shallow embedding of the IPD measurement core of this repository
(`src/utils/calculations.ts` and the capture-session logic of
`src/components/CameraView.tsx`) and proofs about it.

Modelling conventions:
* JavaScript numbers are modelled as exact rationals (`ℚ`); numeric
  literals such as `0.85` become the exact rationals they denote in the
  source text.
* `Math.sqrt` and `Math.atan2` are transcendental on `ℚ`, so they are
  passed as explicit function parameters (bundled in `JsMath`); theorems
  that need genuine square-root behaviour assume it pointwise at the
  radicands involved (`IsSqrtAt`).
* `Math.PI` is the IEEE-754 double used by JavaScript, an exact rational.
* A JavaScript out-of-bounds array read followed by a property access
  throws; this is modelled by `Except CalcError` with the single error
  `CalcError.invalidInput`.
-/

namespace IpdMeasure

/-- `Point` of `src/types.ts`: normalized landmark coordinates, `z` optional. -/
structure Point where
  x : ℚ
  y : ℚ
  z : Option ℚ := none
deriving DecidableEq

/-- `Metrics` of `src/types.ts`. -/
structure Metrics where
  ipd : ℚ
  leftPd : ℚ
  rightPd : ℚ
  distance : ℚ
  lighting : ℚ
  accuracy : ℚ
  roll : ℚ
  yaw : ℚ
  pitch : ℚ
  faceY : ℚ
  stability : ℚ
deriving DecidableEq

instance : Inhabited Metrics :=
  ⟨{ ipd := 0, leftPd := 0, rightPd := 0, distance := 0, lighting := 0, accuracy := 0,
     roll := 0, yaw := 0, pitch := 0, faceY := 0, stability := 0 }⟩

/-- The `Math.sqrt` / `Math.atan2` primitives of the JavaScript runtime,
modelled as parameters over exact rationals. -/
structure JsMath where
  sqrt : ℚ → ℚ
  atan2 : ℚ → ℚ → ℚ

/-- `M.sqrt` agrees with the exact real square root at the single input `x`. -/
def IsSqrtAt (M : JsMath) (x : ℚ) : Prop :=
  0 ≤ M.sqrt x ∧ M.sqrt x * M.sqrt x = x

/-- The IEEE-754 double value of JavaScript's `Math.PI`. -/
def MATH_PI : ℚ := 884279719003555 / 281474976710656

/-- `Math.round`: round half toward positive infinity. -/
def mathRound (q : ℚ) : ℤ := ⌊q + 1/2⌋

-- Constants of src/utils/calculations.ts
def AVERAGE_IRIS_DIAMETER_MM : ℚ := 117/10
def IDEAL_DISTANCE_CM : ℚ := 30
def MIN_DISTANCE_CM : ℚ := 20
def MAX_DISTANCE_CM : ℚ := 45

-- Landmark indices of src/utils/calculations.ts
def LEFT_IRIS_CENTER : ℕ := 468
def RIGHT_IRIS_CENTER : ℕ := 473
def NOSE_BRIDGE : ℕ := 168
def NOSE_TIP : ℕ := 1
def CHIN : ℕ := 152
def FOREHEAD : ℕ := 10
def LEFT_EYE_OUTER : ℕ := 33
def RIGHT_EYE_OUTER : ℕ := 263
def LEFT_EYE_TOP : ℕ := 159
def LEFT_EYE_BOTTOM : ℕ := 145
def RIGHT_EYE_TOP : ℕ := 386
def RIGHT_EYE_BOTTOM : ℕ := 374
def LEFT_EYE_INNER : ℕ := 133
def RIGHT_EYE_INNER : ℕ := 362
def LEFT_CHEEK : ℕ := 454
def RIGHT_CHEEK : ℕ := 234

/-- `getMedian` of calculations.ts: sort ascending, take middle element, or the
mean of the two middle elements for even length; `0` on the empty list. -/
def getMedian (values : List ℚ) : ℚ :=
  if values = [] then 0
  else
    let sorted := values.insertionSort (· ≤ ·)
    let mid := sorted.length / 2
    if sorted.length % 2 ≠ 0 then sorted.getD mid 0
    else (sorted.getD (mid - 1) 0 + sorted.getD mid 0) / 2

/-- The population variance computed inside `getStandardDeviation` of
calculations.ts (`avgSquareDiff` there): mean of squared deviations. -/
def getVariance (values : List ℚ) : ℚ :=
  let avg := values.sum / (values.length : ℚ)
  let squareDiffs := values.map (fun v => (v - avg) ^ 2)
  squareDiffs.sum / (squareDiffs.length : ℚ)

/-- `getStandardDeviation` of calculations.ts: `0` on the empty list, else
`Math.sqrt` of the mean squared deviation. -/
def getStandardDeviation (sqrt : ℚ → ℚ) (values : List ℚ) : ℚ :=
  if values.length = 0 then 0 else sqrt (getVariance values)

/-- The named local `stabilityPenalty` of `calculateAccuracy` in
calculations.ts: `Math.max(0, (100 - stability) * 1.5)`. -/
def stabilityPenalty (stability : ℚ) : ℚ := max 0 ((100 - stability) * (3/2))

/-- `calculateAccuracy` of calculations.ts (the canonical variant with the
`stability` parameter, default `100` at its call site in `calculateMetrics`). -/
def calculateAccuracy (distance lighting roll yaw pitch stability : ℚ) : ℤ :=
  let a1 : ℚ :=
    if distance < MIN_DISTANCE_CM then 100 - (MIN_DISTANCE_CM - distance) * 5
    else if distance > MAX_DISTANCE_CM then 100 - (distance - MAX_DISTANCE_CM) * 4
    else 100 - |distance - IDEAL_DISTANCE_CM| * (1/2)
  let a2 : ℚ := if lighting < 60 then a1 - (60 - lighting) else a1
  let a3 : ℚ := a2 - |roll| * 3 - |yaw * 100| - |pitch * 150|
  let a4 : ℚ := a3 - stabilityPenalty stability
  mathRound (max 0 (min 100 a4))

/-- C7: with distance 10 cm (below `MIN_DISTANCE_CM = 20`, near-coefficient 5),
neutral pose, lighting at or above the floor of 60 and stability 100, the
Confidence Scorer returns accuracy 50: the only penalty is `(20 - 10) * 5`. -/
theorem C7_thm (lighting : ℚ) (hl : 60 ≤ lighting) :
    calculateAccuracy 10 lighting 0 0 0 100 = 50 := by
  have hnl : ¬ (lighting < 60) := not_lt.mpr hl
  unfold calculateAccuracy stabilityPenalty
  norm_num [MIN_DISTANCE_CM, MAX_DISTANCE_CM, IDEAL_DISTANCE_CM, hnl, mathRound]

/-- Witness for C7 at the concrete lighting value 80. -/
theorem C7_witness : calculateAccuracy 10 80 0 0 0 100 = 50 :=
  C7_thm 80 (by norm_num)

/-- The single error of the model: a JavaScript property access on an
`undefined` array element (a missing landmark index) throws; the spec calls
this failure `InvalidInput`. -/
inductive CalcError
  | invalidInput
deriving DecidableEq

inductive Side
  | left
  | right
deriving DecidableEq

/-- `len_sq` of `calculateMetrics`: squared length of the iris-to-iris pixel
vector `vLR` (the same expression as the radicand of `pixelDistance`). -/
def lenSq (lx ly rx ry : ℚ) : ℚ := (rx - lx) * (rx - lx) + (ry - ly) * (ry - ly)

/-- `t` of `calculateMetrics`: `len_sq !== 0 ? dot / len_sq : 0.5`. -/
def projParamT (lx ly rx ry nx ny : ℚ) : ℚ :=
  let dot := (nx - lx) * (rx - lx) + (ny - ly) * (ry - ly)
  if lenSq lx ly rx ry ≠ 0 then dot / lenSq lx ly rx ry else 1/2

/-- `(px, py)` of `calculateMetrics`: the nose bridge projected onto the line
through the iris centers. -/
def projPoint (lx ly rx ry nx ny : ℚ) : ℚ × ℚ :=
  let t := projParamT lx ly rx ry nx ny
  (lx + t * (rx - lx), ly + t * (ry - ly))

/-- Pixel distance from the projected point to the left iris center
(`Math.sqrt(Math.pow(px - lx, 2) + Math.pow(py - ly, 2))`). -/
def leftPdPx (M : JsMath) (lx ly rx ry nx ny : ℚ) : ℚ :=
  M.sqrt (((projPoint lx ly rx ry nx ny).1 - lx) ^ 2 +
    ((projPoint lx ly rx ry nx ny).2 - ly) ^ 2)

/-- Pixel distance from the projected point to the right iris center. -/
def rightPdPx (M : JsMath) (lx ly rx ry nx ny : ℚ) : ℚ :=
  M.sqrt (((projPoint lx ly rx ry nx ny).1 - rx) ^ 2 +
    ((projPoint lx ly rx ry nx ny).2 - ry) ^ 2)

/-- `pixelDistance` of `calculateMetrics`: iris-center to iris-center pixel
distance. -/
def pixelDistOf (M : JsMath) (lx ly rx ry : ℚ) : ℚ := M.sqrt (lenSq lx ly rx ry)

/-- C5: whenever the nose-bridge projection parameter `t` lies in `[0, 1]` and
the square roots involved are exact, the pixel-space left PD plus right PD of
the Geometry Calculator equals the iris-center-to-iris-center pixel distance
exactly. -/
theorem C5_thm (M : JsMath) (lx ly rx ry nx ny : ℚ)
    (ht0 : 0 ≤ projParamT lx ly rx ry nx ny)
    (ht1 : projParamT lx ly rx ry nx ny ≤ 1)
    (hs : IsSqrtAt M (lenSq lx ly rx ry))
    (hl : IsSqrtAt M (((projPoint lx ly rx ry nx ny).1 - lx) ^ 2 +
      ((projPoint lx ly rx ry nx ny).2 - ly) ^ 2))
    (hr : IsSqrtAt M (((projPoint lx ly rx ry nx ny).1 - rx) ^ 2 +
      ((projPoint lx ly rx ry nx ny).2 - ry) ^ 2)) :
    leftPdPx M lx ly rx ry nx ny + rightPdPx M lx ly rx ry nx ny =
      pixelDistOf M lx ly rx ry := by
  obtain ⟨hs0, hs2⟩ := hs
  obtain ⟨hl0, hl2⟩ := hl
  obtain ⟨hr0, hr2⟩ := hr
  have hts : 0 ≤ projParamT lx ly rx ry nx ny * M.sqrt (lenSq lx ly rx ry) :=
    mul_nonneg ht0 hs0
  have hts1 : 0 ≤ (1 - projParamT lx ly rx ry nx ny) * M.sqrt (lenSq lx ly rx ry) :=
    mul_nonneg (by linarith) hs0
  have hradL : ((projPoint lx ly rx ry nx ny).1 - lx) ^ 2 +
      ((projPoint lx ly rx ry nx ny).2 - ly) ^ 2 =
      projParamT lx ly rx ry nx ny ^ 2 * lenSq lx ly rx ry := by
    simp only [projPoint, lenSq]
    ring
  have hradR : ((projPoint lx ly rx ry nx ny).1 - rx) ^ 2 +
      ((projPoint lx ly rx ry nx ny).2 - ry) ^ 2 =
      (1 - projParamT lx ly rx ry nx ny) ^ 2 * lenSq lx ly rx ry := by
    simp only [projPoint, lenSq]
    ring
  have haL : M.sqrt (((projPoint lx ly rx ry nx ny).1 - lx) ^ 2 +
      ((projPoint lx ly rx ry nx ny).2 - ly) ^ 2) *
      M.sqrt (((projPoint lx ly rx ry nx ny).1 - lx) ^ 2 +
      ((projPoint lx ly rx ry nx ny).2 - ly) ^ 2) =
      (projParamT lx ly rx ry nx ny * M.sqrt (lenSq lx ly rx ry)) *
      (projParamT lx ly rx ry nx ny * M.sqrt (lenSq lx ly rx ry)) := by
    rw [hl2, hradL]
    linear_combination (-(projParamT lx ly rx ry nx ny ^ 2)) * hs2
  have haR : M.sqrt (((projPoint lx ly rx ry nx ny).1 - rx) ^ 2 +
      ((projPoint lx ly rx ry nx ny).2 - ry) ^ 2) *
      M.sqrt (((projPoint lx ly rx ry nx ny).1 - rx) ^ 2 +
      ((projPoint lx ly rx ry nx ny).2 - ry) ^ 2) =
      ((1 - projParamT lx ly rx ry nx ny) * M.sqrt (lenSq lx ly rx ry)) *
      ((1 - projParamT lx ly rx ry nx ny) * M.sqrt (lenSq lx ly rx ry)) := by
    rw [hr2, hradR]
    linear_combination (-((1 - projParamT lx ly rx ry nx ny) ^ 2)) * hs2
  have hL : M.sqrt (((projPoint lx ly rx ry nx ny).1 - lx) ^ 2 +
      ((projPoint lx ly rx ry nx ny).2 - ly) ^ 2) =
      projParamT lx ly rx ry nx ny * M.sqrt (lenSq lx ly rx ry) := by
    rcases mul_self_eq_mul_self_iff.mp haL with h | h
    · exact h
    · linarith
  have hR : M.sqrt (((projPoint lx ly rx ry nx ny).1 - rx) ^ 2 +
      ((projPoint lx ly rx ry nx ny).2 - ry) ^ 2) =
      (1 - projParamT lx ly rx ry nx ny) * M.sqrt (lenSq lx ly rx ry) := by
    rcases mul_self_eq_mul_self_iff.mp haR with h | h
    · exact h
    · linarith
  unfold leftPdPx rightPdPx pixelDistOf
  rw [hL, hR]
  ring

/-- A square-root table sufficient for the C5 witness inputs. -/
def sqrtTableA (q : ℚ) : ℚ :=
  if q = 1 then 1 else if q = 1/16 then 1/4 else if q = 9/16 then 3/4 else 0

def mathA : JsMath := ⟨sqrtTableA, fun _ _ => 0⟩

/-- Witness for C5 at iris centers (0,0) and (1,0) with nose bridge (1/4, 3):
the projection parameter is 1/4 and the two monocular pixel distances 1/4 and
3/4 sum to the iris distance 1. -/
theorem C5_witness :
    (0 ≤ projParamT 0 0 1 0 (1/4) 3 ∧ projParamT 0 0 1 0 (1/4) 3 ≤ 1) ∧
      leftPdPx mathA 0 0 1 0 (1/4) 3 + rightPdPx mathA 0 0 1 0 (1/4) 3 =
        pixelDistOf mathA 0 0 1 0 :=
  ⟨⟨by norm_num [projParamT, lenSq], by norm_num [projParamT, lenSq]⟩,
    C5_thm mathA 0 0 1 0 (1/4) 3 (by norm_num [projParamT, lenSq])
      (by norm_num [projParamT, lenSq])
      (by norm_num [IsSqrtAt, mathA, sqrtTableA, lenSq])
      (by norm_num [IsSqrtAt, mathA, sqrtTableA, projPoint, projParamT, lenSq])
      (by norm_num [IsSqrtAt, mathA, sqrtTableA, projPoint, projParamT, lenSq])⟩

-- Horizontal iris boundary index pairs (source arrays `[471, 469]`, `[476, 474]`).
def LEFT_IRIS_HORIZONTAL : ℕ × ℕ := (471, 469)
def RIGHT_IRIS_HORIZONTAL : ℕ × ℕ := (476, 474)

/-- `calculateIrisDiameterPx` of calculations.ts: pixel distance between the
horizontal iris boundary landmarks of one eye.  An out-of-bounds landmark read
fails (JavaScript throws on the property access). -/
def calculateIrisDiameterPx (M : JsMath) (landmarks : List Point) (side : Side)
    (width height : ℚ) : Except CalcError ℚ :=
  let indices := match side with
    | .left => LEFT_IRIS_HORIZONTAL
    | .right => RIGHT_IRIS_HORIZONTAL
  match landmarks[indices.1]?, landmarks[indices.2]? with
  | some p1, some p2 =>
      let dx := (p1.x - p2.x) * width
      let dy := (p1.y - p2.y) * height
      .ok (M.sqrt (dx * dx + dy * dy))
  | _, _ => .error .invalidInput

structure Orientation where
  roll : ℚ
  yaw : ℚ
  pitch : ℚ
deriving DecidableEq

/-- `calculateOrientation` of calculations.ts.  `Math.hypot(a, b)` is
`Math.sqrt(a*a + b*b)`; the JavaScript `faceHeight || 0.5` fallback fires
exactly when `faceHeight` is `0`; the canonical variant leaves `pitchScore = 0`
when either `z` is absent. -/
def calculateOrientation (M : JsMath) (landmarks : List Point)
    (width height : ℚ) : Except CalcError Orientation :=
  match landmarks[LEFT_EYE_OUTER]?, landmarks[RIGHT_EYE_OUTER]?,
        landmarks[NOSE_BRIDGE]?, landmarks[LEFT_CHEEK]?,
        landmarks[RIGHT_CHEEK]?, landmarks[FOREHEAD]?,
        landmarks[CHIN]? with
  | some leftEye, some rightEye, some nose, some leftCheek, some rightCheek,
      some topHead, some bottomHead =>
      let rollDeg := M.atan2 ((rightEye.y - leftEye.y) * height)
        ((rightEye.x - leftEye.x) * width) * (180 / MATH_PI)
      let dLeft := |nose.x - leftCheek.x|
      let dRight := |nose.x - rightCheek.x|
      let yawScore := (dLeft - dRight) / (dLeft + dRight)
      let faceHeight := M.sqrt ((topHead.x - bottomHead.x) * (topHead.x - bottomHead.x) +
        (topHead.y - bottomHead.y) * (topHead.y - bottomHead.y))
      let pitchScore :=
        match topHead.z, bottomHead.z with
        | some tz, some bz => (tz - bz) / (if faceHeight = 0 then 1/2 else faceHeight)
        | _, _ => 0
      .ok { roll := rollDeg, yaw := yawScore, pitch := pitchScore }
  | _, _, _, _, _, _, _ => .error .invalidInput

/-- `calculateMetrics` of calculations.ts: the canonical per-frame Geometry
Calculator.  Any missing landmark (here or in the two helpers it calls) makes
the whole tick fail with `invalidInput`; no partially computed `Metrics` value
can be produced.  The accuracy is computed with the `stability` argument left
at its default `100`, and the returned `stability` field is the literal `100`. -/
def calculateMetrics (M : JsMath) (landmarks : List Point)
    (width height lightingScore : ℚ) : Except CalcError Metrics :=
  match landmarks[LEFT_IRIS_CENTER]?, landmarks[RIGHT_IRIS_CENTER]?,
        landmarks[NOSE_BRIDGE]?, landmarks[NOSE_TIP]? with
  | some leftIris, some rightIris, some nose, some noseTip =>
      (match calculateIrisDiameterPx M landmarks .left width height,
             calculateIrisDiameterPx M landmarks .right width height,
             calculateOrientation M landmarks width height with
      | .ok leftDiameter, .ok rightDiameter, .ok ori =>
          let lx := leftIris.x * width
          let ly := leftIris.y * height
          let rx := rightIris.x * width
          let ry := rightIris.y * height
          let nx := nose.x * width
          let ny := nose.y * height
          let pixelDistance := pixelDistOf M lx ly rx ry
          let avgIrisDiameterPx := (leftDiameter + rightDiameter) / 2
          let mmPerPixel := AVERAGE_IRIS_DIAMETER_MM / avgIrisDiameterPx
          let ipdMm := pixelDistance * mmPerPixel
          let estimatedFocalLengthPx := width * (85/100)
          let distanceCm := (AVERAGE_IRIS_DIAMETER_MM * estimatedFocalLengthPx) /
            (avgIrisDiameterPx * 10)
          let leftPd := leftPdPx M lx ly rx ry nx ny * mmPerPixel
          let rightPd := rightPdPx M lx ly rx ry nx ny * mmPerPixel
          let faceY := noseTip.y
          let accuracy := calculateAccuracy distanceCm lightingScore
            ori.roll ori.yaw ori.pitch 100
          .ok { ipd := ipdMm, leftPd := leftPd, rightPd := rightPd,
                distance := distanceCm, lighting := lightingScore,
                accuracy := (accuracy : ℚ), roll := ori.roll, yaw := ori.yaw,
                pitch := ori.pitch, faceY := faceY, stability := 100 }
      | _, _, _ => .error .invalidInput)
  | _, _, _, _ => .error .invalidInput

/-- Every landmark index read by `calculateMetrics` (directly or through
`calculateIrisDiameterPx` and `calculateOrientation`). -/
def requiredIndices : List ℕ :=
  [LEFT_IRIS_CENTER, RIGHT_IRIS_CENTER, NOSE_BRIDGE, NOSE_TIP,
   471, 469, 476, 474,
   LEFT_EYE_OUTER, RIGHT_EYE_OUTER, LEFT_CHEEK, RIGHT_CHEEK, FOREHEAD, CHIN]

lemma except_isOk_exists {ε α : Type} (e : Except ε α) :
    e.isOk = true ↔ ∃ a, e = .ok a := by
  cases e <;> simp [Except.isOk, Except.toBool]

lemma except_eq_ok_getD {ε α : Type} (e : Except ε α) (d : α) (h : e.isOk = true) :
    e = .ok (e.toOption.getD d) := by
  cases e with
  | ok v => rfl
  | error er => simp [Except.isOk, Except.toBool] at h

lemma irisDiameterPx_right_error (M : JsMath) (lm : List Point) (w h : ℚ)
    (h476 : lm[476]? = none) :
    calculateIrisDiameterPx M lm .right w h = .error .invalidInput := by
  unfold calculateIrisDiameterPx RIGHT_IRIS_HORIZONTAL
  simp [h476]

lemma calcMetrics_error_of_476 (M : JsMath) (lm : List Point) (w h s : ℚ)
    (h476 : lm[476]? = none) :
    calculateMetrics M lm w h s = .error .invalidInput := by
  have hR := irisDiameterPx_right_error M lm w h h476
  unfold calculateMetrics
  rcases h468 : lm[LEFT_IRIS_CENTER]? with _ | p468 <;>
    rcases h473 : lm[RIGHT_IRIS_CENTER]? with _ | p473 <;>
    rcases h168 : lm[NOSE_BRIDGE]? with _ | p168 <;>
    rcases h1 : lm[NOSE_TIP]? with _ | p1 <;>
    rcases hl : calculateIrisDiameterPx M lm .left w h with e | dl <;>
    rcases ho : calculateOrientation M lm w h with eo | o <;>
    simp [h468, h473, h168, h1, hl, ho, hR]

lemma irisDiameter_isOk (M : JsMath) (lm : List Point) (side : Side) (w h : ℚ)
    (h477 : 477 ≤ lm.length) :
    (calculateIrisDiameterPx M lm side w h).isOk = true := by
  cases side <;>
    · simp only [calculateIrisDiameterPx, LEFT_IRIS_HORIZONTAL, RIGHT_IRIS_HORIZONTAL]
      rw [List.getElem?_eq_getElem (by omega), List.getElem?_eq_getElem (by omega)]
      rfl

lemma orientation_isOk (M : JsMath) (lm : List Point) (w h : ℚ)
    (h477 : 477 ≤ lm.length) :
    (calculateOrientation M lm w h).isOk = true := by
  unfold calculateOrientation LEFT_EYE_OUTER RIGHT_EYE_OUTER NOSE_BRIDGE
    LEFT_CHEEK RIGHT_CHEEK FOREHEAD CHIN
  rw [List.getElem?_eq_getElem (by omega), List.getElem?_eq_getElem (by omega),
    List.getElem?_eq_getElem (by omega), List.getElem?_eq_getElem (by omega),
    List.getElem?_eq_getElem (by omega), List.getElem?_eq_getElem (by omega),
    List.getElem?_eq_getElem (by omega)]
  rfl

lemma calcMetrics_isOk (M : JsMath) (lm : List Point) (w h s : ℚ)
    (h477 : 477 ≤ lm.length) :
    (calculateMetrics M lm w h s).isOk = true := by
  obtain ⟨dl, hdl⟩ := (except_isOk_exists _).mp (irisDiameter_isOk M lm .left w h h477)
  obtain ⟨dr, hdr⟩ := (except_isOk_exists _).mp (irisDiameter_isOk M lm .right w h h477)
  obtain ⟨o, ho⟩ := (except_isOk_exists _).mp (orientation_isOk M lm w h h477)
  unfold calculateMetrics LEFT_IRIS_CENTER RIGHT_IRIS_CENTER NOSE_BRIDGE NOSE_TIP
  rw [List.getElem?_eq_getElem (by omega), List.getElem?_eq_getElem (by omega),
    List.getElem?_eq_getElem (by omega), List.getElem?_eq_getElem (by omega)]
  rw [hdl, hdr, ho]
  rfl

/-- C3: a landmark frame missing any required landmark index makes the
Geometry Calculator fail with the `invalidInput` error (the modelled
`InvalidInput`), so no `Metrics` value — in particular no partially computed
one — is produced for that tick. -/
theorem C3_thm (M : JsMath) (lm : List Point) (w h s : ℚ)
    (hmiss : ∃ i ∈ requiredIndices, lm[i]? = none) :
    calculateMetrics M lm w h s = .error .invalidInput := by
  obtain ⟨i, hi, hnone⟩ := hmiss
  have hlen : lm.length ≤ i := List.getElem?_eq_none_iff.mp hnone
  have hle : i ≤ 476 := by
    simp only [requiredIndices, LEFT_IRIS_CENTER, RIGHT_IRIS_CENTER, NOSE_BRIDGE,
      NOSE_TIP, LEFT_EYE_OUTER, RIGHT_EYE_OUTER, LEFT_CHEEK, RIGHT_CHEEK,
      FOREHEAD, CHIN, List.mem_cons, List.mem_singleton, List.mem_nil_iff,
      or_false] at hi
    rcases hi with rfl | rfl | rfl | rfl | rfl | rfl | rfl | rfl | rfl | rfl |
      rfl | rfl | rfl | rfl <;> norm_num
  exact calcMetrics_error_of_476 M lm w h s (List.getElem?_eq_none (by omega))

def c3Frame : List Point := List.replicate 400 ⟨1/2, 1/2, none⟩

/-- Witness for C3: a 400-point frame misses required index 468 and is
rejected with `invalidInput`. -/
theorem C3_witness : calculateMetrics mathA c3Frame 1280 720 50 = .error .invalidInput :=
  C3_thm mathA c3Frame 1280 720 50
    ⟨468, by norm_num [requiredIndices, LEFT_IRIS_CENTER],
      by unfold c3Frame
         apply List.getElem?_eq_none
         rw [List.length_replicate]
         norm_num⟩

/-- Frame accessor used only in theorem statements: the point at index `i`,
defaulting to the origin (all statements using it also require the index to be
present). -/
def lmPt (lm : List Point) (i : ℕ) : Point := lm[i]?.getD ⟨0, 0, none⟩

/-- C8: when the pixel vector between the two iris centers has zero squared
length, the monocular-split projection parameter falls back to `t = 0.5`, and
the Geometry Calculator still succeeds — the degenerate case is not an error. -/
theorem C8_thm (M : JsMath) (lm : List Point) (w h s : ℚ)
    (h477 : 477 ≤ lm.length)
    (hdeg : lenSq ((lmPt lm LEFT_IRIS_CENTER).x * w) ((lmPt lm LEFT_IRIS_CENTER).y * h)
      ((lmPt lm RIGHT_IRIS_CENTER).x * w) ((lmPt lm RIGHT_IRIS_CENTER).y * h) = 0) :
    projParamT ((lmPt lm LEFT_IRIS_CENTER).x * w) ((lmPt lm LEFT_IRIS_CENTER).y * h)
        ((lmPt lm RIGHT_IRIS_CENTER).x * w) ((lmPt lm RIGHT_IRIS_CENTER).y * h)
        ((lmPt lm NOSE_BRIDGE).x * w) ((lmPt lm NOSE_BRIDGE).y * h) = 1/2 ∧
      (calculateMetrics M lm w h s).isOk = true := by
  refine ⟨?_, calcMetrics_isOk M lm w h s h477⟩
  simp [projParamT, hdeg]

def c8Frame : List Point := List.replicate 478 ⟨1/2, 1/2, none⟩

/-- Witness for C8: a full 478-point frame whose iris centers coincide yields
`t = 1/2` and a successful measurement. -/
theorem C8_witness :
    projParamT ((lmPt c8Frame LEFT_IRIS_CENTER).x * 1280) ((lmPt c8Frame LEFT_IRIS_CENTER).y * 720)
        ((lmPt c8Frame RIGHT_IRIS_CENTER).x * 1280) ((lmPt c8Frame RIGHT_IRIS_CENTER).y * 720)
        ((lmPt c8Frame NOSE_BRIDGE).x * 1280) ((lmPt c8Frame NOSE_BRIDGE).y * 720) = 1/2 ∧
      (calculateMetrics mathA c8Frame 1280 720 50).isOk = true :=
  C8_thm mathA c8Frame 1280 720 50
    (by unfold c8Frame; rw [List.length_replicate]; norm_num)
    (by unfold c8Frame lmPt LEFT_IRIS_CENTER RIGHT_IRIS_CENTER
        rw [List.getElem?_replicate, List.getElem?_replicate]
        norm_num [lenSq])

/-- C9: every successful per-frame measurement has `stability = 100`, and its
accuracy field is `calculateAccuracy` of its own distance, lighting and pose
fields with the stability argument fixed at `100`; the stability deficit
penalty at `100` is zero. -/
theorem C9_thm (M : JsMath) (lm : List Point) (w h s : ℚ) (m : Metrics)
    (hok : calculateMetrics M lm w h s = .ok m) :
    m.stability = 100 ∧
      m.accuracy = ((calculateAccuracy m.distance m.lighting m.roll m.yaw m.pitch 100 : ℤ) : ℚ) ∧
      stabilityPenalty 100 = 0 := by
  unfold calculateMetrics at hok
  split at hok
  · split at hok
    · simp only [Except.ok.injEq] at hok
      subst hok
      refine ⟨rfl, rfl, ?_⟩
      norm_num [stabilityPenalty]
    · simp at hok
  · simp at hok

def c9Frame : List Point := List.replicate 478 ⟨2/5, 3/5, none⟩

def c9Metrics : Metrics := (calculateMetrics mathA c9Frame 1280 720 80).toOption.getD default

/-- Witness for C9 on a full 478-point frame. -/
theorem C9_witness :
    c9Metrics.stability = 100 ∧
      c9Metrics.accuracy = ((calculateAccuracy c9Metrics.distance c9Metrics.lighting
        c9Metrics.roll c9Metrics.yaw c9Metrics.pitch 100 : ℤ) : ℚ) ∧
      stabilityPenalty 100 = 0 :=
  C9_thm mathA c9Frame 1280 720 80 c9Metrics
    (except_eq_ok_getD _ default
      (calcMetrics_isOk mathA c9Frame 1280 720 80
        (by unfold c9Frame; rw [List.length_replicate]; norm_num)))

/-- Error of `averageMetrics` on empty input (source: `throw new Error("No samples")`). -/
inductive AggError
  | noSamples
deriving DecidableEq

/-- Step 1 of `averageMetrics` in calculations.ts: keep samples whose ipd is
within 1.0 mm of the median ipd; fall back to the full input when at most 40%
of the samples would be retained. -/
def retainedSet (samples : List Metrics) : List Metrics :=
  let ipdValues := samples.map (·.ipd)
  let medianIpd := getMedian ipdValues
  let validSamples := samples.filter (fun s => |s.ipd - medianIpd| < 1)
  if (validSamples.length : ℚ) > (samples.length : ℚ) * (4/10) then validSamples
  else samples

/-- `poseError` of `averageMetrics`: `|yaw| + |pitch| + |roll| / 100`. -/
def poseError (s : Metrics) : ℚ := |s.yaw| + |s.pitch| + |s.roll| / 100

/-- `weight` of `averageMetrics`: `1 / (1 + poseError * 10)`. -/
def sampleWeight (s : Metrics) : ℚ := 1 / (1 + poseError s * 10)

/-- `totalWeight` accumulated by the `forEach` of `averageMetrics`. -/
def sumWeights (set : List Metrics) : ℚ := (set.map sampleWeight).sum

/-- `weightedIpd` accumulated by the `forEach` of `averageMetrics`. -/
def sumWeightedIpd (set : List Metrics) : ℚ :=
  (set.map (fun s => s.ipd * sampleWeight s)).sum

/-- `weightedDist` accumulated by the `forEach` of `averageMetrics`. -/
def sumWeightedDist (set : List Metrics) : ℚ :=
  (set.map (fun s => s.distance * sampleWeight s)).sum

/-- `avgLeftRaw` of `averageMetrics`: unweighted mean left PD. -/
def avgLeftRaw (set : List Metrics) : ℚ := (set.map (·.leftPd)).sum / (set.length : ℚ)

/-- `avgRightRaw` of `averageMetrics`: unweighted mean right PD. -/
def avgRightRaw (set : List Metrics) : ℚ := (set.map (·.rightPd)).sum / (set.length : ℚ)

/-- Body of `averageMetrics` of calculations.ts after the non-empty check.
The source's unused `landmarksHistory` parameter is omitted. -/
def averageMetricsCore (sqrt : ℚ → ℚ) (samples : List Metrics) : Metrics :=
  let medianIpd := getMedian (samples.map (·.ipd))
  let set := retainedSet samples
  let totalWeight := sumWeights set
  let finalIpd := if totalWeight > 0 then sumWeightedIpd set / totalWeight else medianIpd
  let finalDistance :=
    if totalWeight > 0 then sumWeightedDist set / totalWeight
    else getMedian (set.map (·.distance))
  let totalRaw := avgLeftRaw set + avgRightRaw set
  let scale := if totalRaw > 0 then finalIpd / totalRaw else 1
  let stdDev := getStandardDeviation sqrt (set.map (·.ipd))
  let stabilityScore := max 0 (100 - stdDev * 30)
  let meanAccuracy := (set.map (·.accuracy)).sum / (set.length : ℚ)
  { ipd := finalIpd
    leftPd := avgLeftRaw set * scale
    rightPd := avgRightRaw set * scale
    distance := finalDistance
    lighting := getMedian (set.map (·.lighting))
    accuracy := meanAccuracy
    roll := getMedian (set.map (·.roll))
    yaw := getMedian (set.map (·.yaw))
    pitch := getMedian (set.map (·.pitch))
    faceY := getMedian (set.map (·.faceY))
    stability := stabilityScore }

/-- `averageMetrics` of calculations.ts: the Aggregator; empty input throws. -/
def averageMetrics (sqrt : ℚ → ℚ) (samples : List Metrics) : Except AggError Metrics :=
  if samples = [] then .error .noSamples else .ok (averageMetricsCore sqrt samples)

lemma poseError_nonneg (m : Metrics) : 0 ≤ poseError m := by
  unfold poseError
  positivity

lemma sampleWeight_pos (m : Metrics) : 0 < sampleWeight m := by
  have h := poseError_nonneg m
  unfold sampleWeight
  have hden : 0 < 1 + poseError m * 10 := by linarith
  positivity

lemma retainedSet_ne_nil (samples : List Metrics) (hne : samples ≠ []) :
    retainedSet samples ≠ [] := by
  simp only [retainedSet]
  have hn : 1 ≤ samples.length := List.length_pos.mpr hne
  split_ifs with h
  · intro he
    rw [he] at h
    have : (1 : ℚ) ≤ (samples.length : ℚ) := by exact_mod_cast hn
    simp only [List.length_nil, Nat.cast_zero] at h
    nlinarith
  · exact hne

lemma sumWeights_pos (set : List Metrics) (hne : set ≠ []) :
    0 < sumWeights set := by
  unfold sumWeights
  apply List.sum_pos
  · intro x hx
    obtain ⟨m, _, rfl⟩ := List.mem_map.mp hx
    exact sampleWeight_pos m
  · simpa using hne

/-- C10: on every non-empty input the Aggregator is total and all divisors are
positive: the retained set is non-empty (median filter falls back to the full
input at or below 40% retention), every pose weight is strictly positive so
the total weight is positive, the retained set's size is positive, and
`averageMetrics` succeeds. -/
theorem C10_thm (sqrt : ℚ → ℚ) (samples : List Metrics) (hne : samples ≠ []) :
    retainedSet samples ≠ [] ∧
      (∀ m ∈ retainedSet samples, 0 < sampleWeight m) ∧
      0 < sumWeights (retainedSet samples) ∧
      0 < ((retainedSet samples).length : ℚ) ∧
      averageMetrics sqrt samples = .ok (averageMetricsCore sqrt samples) := by
  have hset := retainedSet_ne_nil samples hne
  refine ⟨hset, fun m _ => sampleWeight_pos m, sumWeights_pos _ hset, ?_, ?_⟩
  · exact_mod_cast List.length_pos.mpr hset
  · unfold averageMetrics
    rw [if_neg hne]

def mGood : Metrics :=
  { ipd := 63, leftPd := 30, rightPd := 33, distance := 30, lighting := 80,
    accuracy := 100, roll := 0, yaw := 0, pitch := 0, faceY := 1/2, stability := 100 }

/-- Witness for C10 on the one-sample list `[mGood]`. -/
theorem C10_witness :
    retainedSet [mGood] ≠ [] ∧
      (∀ m ∈ retainedSet [mGood], 0 < sampleWeight m) ∧
      0 < sumWeights (retainedSet [mGood]) ∧
      0 < ((retainedSet [mGood]).length : ℚ) ∧
      averageMetrics (fun q => q) [mGood] = .ok (averageMetricsCore (fun q => q) [mGood]) :=
  C10_thm (fun q => q) [mGood] (by simp)

lemma scale_sum (aL aR fi : ℚ) (h : 0 < aL + aR) :
    aL * (fi / (aL + aR)) + aR * (fi / (aL + aR)) = fi := by
  have hne : aL + aR ≠ 0 := ne_of_gt h
  field_simp
  ring

/-- C1 (amended): whenever the retained set's summed mean monocular PDs are
positive, the Aggregator's output satisfies `leftPd + rightPd = ipd` exactly —
both means are rescaled by the single factor `finalIpd / (avgLeft + avgRight)`. -/
theorem C1_thm (sqrt : ℚ → ℚ) (samples : List Metrics) (hne : samples ≠ [])
    (hpos : 0 < avgLeftRaw (retainedSet samples) + avgRightRaw (retainedSet samples)) :
    averageMetrics sqrt samples = .ok (averageMetricsCore sqrt samples) ∧
      (averageMetricsCore sqrt samples).leftPd + (averageMetricsCore sqrt samples).rightPd =
        (averageMetricsCore sqrt samples).ipd := by
  constructor
  · unfold averageMetrics
    rw [if_neg hne]
  · simp only [averageMetricsCore]
    rw [if_pos hpos]
    exact scale_sum _ _ _ hpos

lemma getMedian_singleton (q : ℚ) : getMedian [q] = q := by
  norm_num [getMedian, List.insertionSort, List.orderedInsert]

lemma retainedSet_singleton (m : Metrics) : retainedSet [m] = [m] := by
  simp only [retainedSet, List.map_cons, List.map_nil, getMedian_singleton]
  norm_num [List.filter_cons, List.filter_nil, sub_self, abs_zero]

/-- Witness for C1 on the one-sample list `[mGood]` (retained mean PDs sum to
`30 + 33 > 0`). -/
theorem C1_witness :
    averageMetrics (fun q => q) [mGood] = .ok (averageMetricsCore (fun q => q) [mGood]) ∧
      (averageMetricsCore (fun q => q) [mGood]).leftPd +
          (averageMetricsCore (fun q => q) [mGood]).rightPd =
        (averageMetricsCore (fun q => q) [mGood]).ipd :=
  C1_thm (fun q => q) [mGood] (by simp)
    (by rw [retainedSet_singleton]
        norm_num [avgLeftRaw, avgRightRaw, mGood])

def mBad : Metrics :=
  { ipd := 1, leftPd := 0, rightPd := 0, distance := 0, lighting := 0,
    accuracy := 0, roll := 0, yaw := 0, pitch := 0, faceY := 0, stability := 100 }

/-- Counterexample for C1 as stated: on the non-empty input `[mBad]` (a sample
with `ipd = 1` but zero monocular PDs) the retained mean PD sum is `0`, the
scale defaults to `1`, and the output has `leftPd + rightPd = 0 ≠ 1 = ipd`. -/
theorem C1_cex :
    averageMetrics (fun q => q) [mBad] = .ok (averageMetricsCore (fun q => q) [mBad]) ∧
      (averageMetricsCore (fun q => q) [mBad]).leftPd +
          (averageMetricsCore (fun q => q) [mBad]).rightPd ≠
        (averageMetricsCore (fun q => q) [mBad]).ipd := by
  constructor
  · unfold averageMetrics
    rw [if_neg (by simp)]
  · simp only [averageMetricsCore, retainedSet_singleton]
    norm_num [avgLeftRaw, avgRightRaw, sumWeights, sumWeightedIpd, sampleWeight,
      poseError, getMedian_singleton, mBad]

-- Constants of src/components/CameraView.tsx
def REQUIRED_SAMPLES : ℕ := 100
def ROLL_THRESHOLD : ℚ := 5/2
def YAW_THRESHOLD : ℚ := 6/100
def PITCH_MIN : ℚ := -(12/100)
def PITCH_MAX : ℚ := 12/100
def CENTER_TOLERANCE : ℚ := 15/100

inductive PitchG
  | ok
  | up
  | down
deriving DecidableEq

inductive YawG
  | ok
  | left
  | right
deriving DecidableEq

inductive RollG
  | ok
  | cw
  | ccw
deriving DecidableEq

inductive DistG
  | ok
  | near
  | far
deriving DecidableEq

inductive CenterG
  | ok
  | adjust
deriving DecidableEq

-- `mustOpen` models the source value open of the eyes axis.
inductive EyesG
  | ok
  | mustOpen
deriving DecidableEq

/-- `GuidanceState` of CameraView.tsx. -/
structure GuidanceState where
  pitch : PitchG
  yaw : YawG
  roll : RollG
  distance : DistG
  center : CenterG
  eyes : EyesG
  hold : Bool
deriving DecidableEq

-- Per-axis checks of the `detect` callback (CameraView.tsx lines 437-456).
def classifyDistance (d : ℚ) : DistG :=
  if d < MIN_DISTANCE_CM then .near else if d > MAX_DISTANCE_CM then .far else .ok

def classifyCenter (faceY : ℚ) : CenterG :=
  if |faceY - 1/2| < CENTER_TOLERANCE then .ok else .adjust

def classifyEyes (leftOpen rightOpen : Bool) : EyesG :=
  if leftOpen && rightOpen then .ok else .mustOpen

def classifyPitch (p : ℚ) : PitchG :=
  if p < PITCH_MIN then .up else if p > PITCH_MAX then .down else .ok

def classifyYaw (y : ℚ) : YawG :=
  if y > YAW_THRESHOLD then .left else if y < -YAW_THRESHOLD then .right else .ok

def classifyRoll (r : ℚ) : RollG :=
  if r > ROLL_THRESHOLD then .cw else if r < -ROLL_THRESHOLD then .ccw else .ok

/-- The `newGuidance` computed by `detect` from the tick's measurement and the
per-side eye-open flags, before the capture logic may set `hold`. -/
def evalGuidance (m : Metrics) (leftOpen rightOpen : Bool) : GuidanceState :=
  { pitch := classifyPitch m.pitch
    yaw := classifyYaw m.yaw
    roll := classifyRoll m.roll
    distance := classifyDistance m.distance
    center := classifyCenter m.faceY
    eyes := classifyEyes leftOpen rightOpen
    hold := false }

/-- `isPerfect` of `detect`: set to `false` exactly by the branches that mark
an axis as not ok, hence equivalent to all six axes being ok. -/
def IsPerfect (g : GuidanceState) : Prop :=
  g.pitch = .ok ∧ g.yaw = .ok ∧ g.roll = .ok ∧ g.distance = .ok ∧
    g.center = .ok ∧ g.eyes = .ok

instance (g : GuidanceState) : Decidable (IsPerfect g) := by
  unfold IsPerfect
  infer_instance

lemma classifyRoll_ok_iff (x : ℚ) :
    classifyRoll x = .ok ↔ (-ROLL_THRESHOLD ≤ x ∧ x ≤ ROLL_THRESHOLD) := by
  unfold classifyRoll
  split_ifs with h1 h2
  · exact iff_of_false (by simp) (fun hh => absurd h1 (not_lt.mpr hh.2))
  · exact iff_of_false (by simp) (fun hh => absurd h2 (not_lt.mpr hh.1))
  · exact iff_of_true rfl ⟨le_of_not_lt h2, le_of_not_lt h1⟩

lemma classifyYaw_ok_iff (x : ℚ) :
    classifyYaw x = .ok ↔ (-YAW_THRESHOLD ≤ x ∧ x ≤ YAW_THRESHOLD) := by
  unfold classifyYaw
  split_ifs with h1 h2
  · exact iff_of_false (by simp) (fun hh => absurd h1 (not_lt.mpr hh.2))
  · exact iff_of_false (by simp) (fun hh => absurd h2 (not_lt.mpr hh.1))
  · exact iff_of_true rfl ⟨le_of_not_lt h2, le_of_not_lt h1⟩

lemma classifyPitch_ok_iff (x : ℚ) :
    classifyPitch x = .ok ↔ (PITCH_MIN ≤ x ∧ x ≤ PITCH_MAX) := by
  unfold classifyPitch
  split_ifs with h1 h2
  · exact iff_of_false (by simp) (fun hh => absurd h1 (not_lt.mpr hh.1))
  · exact iff_of_false (by simp) (fun hh => absurd h2 (not_lt.mpr hh.2))
  · exact iff_of_true rfl ⟨le_of_not_lt h1, le_of_not_lt h2⟩

lemma classifyDistance_ok_iff (x : ℚ) :
    classifyDistance x = .ok ↔ (MIN_DISTANCE_CM ≤ x ∧ x ≤ MAX_DISTANCE_CM) := by
  unfold classifyDistance
  split_ifs with h1 h2
  · exact iff_of_false (by simp) (fun hh => absurd h1 (not_lt.mpr hh.1))
  · exact iff_of_false (by simp) (fun hh => absurd h2 (not_lt.mpr hh.2))
  · exact iff_of_true rfl ⟨le_of_not_lt h1, le_of_not_lt h2⟩

lemma classifyCenter_ok_iff (x : ℚ) :
    classifyCenter x = .ok ↔ |x - 1/2| < CENTER_TOLERANCE := by
  unfold classifyCenter
  split_ifs with h1
  · exact iff_of_true rfl h1
  · exact iff_of_false (by simp) h1

lemma classifyEyes_ok_iff (l r : Bool) :
    classifyEyes l r = .ok ↔ (l = true ∧ r = true) := by
  unfold classifyEyes
  split_ifs with h1
  · exact iff_of_true rfl (by simpa [Bool.and_eq_true] using h1)
  · exact iff_of_false (by simp) (by simpa [Bool.and_eq_true] using h1)

/-- The axes of `IsPerfect` spelled out as numeric threshold conditions. -/
lemma isPerfect_axes_iff (m : Metrics) (l r : Bool) :
    IsPerfect (evalGuidance m l r) ↔
      ((-(5/2) ≤ m.roll ∧ m.roll ≤ 5/2) ∧
        (-(6/100) ≤ m.yaw ∧ m.yaw ≤ 6/100) ∧
        (-(12/100) ≤ m.pitch ∧ m.pitch ≤ 12/100) ∧
        |m.faceY - 1/2| < 15/100 ∧
        (20 ≤ m.distance ∧ m.distance ≤ 45) ∧
        l = true ∧ r = true) := by
  unfold IsPerfect evalGuidance
  simp only [classifyPitch_ok_iff, classifyYaw_ok_iff, classifyRoll_ok_iff,
    classifyDistance_ok_iff, classifyCenter_ok_iff, classifyEyes_ok_iff,
    ROLL_THRESHOLD, YAW_THRESHOLD, PITCH_MIN, PITCH_MAX, CENTER_TOLERANCE,
    MIN_DISTANCE_CM, MAX_DISTANCE_CM]
  tauto

inductive CaptureStatus
  | idle
  | sampling
  | complete
deriving DecidableEq

/-- The mutable capture-session state of CameraView.tsx: `captureStatus`,
the `samplesRef` buffer, and the last published `guidanceState`. -/
structure SessionState where
  status : CaptureStatus
  samples : List Metrics
  guidance : GuidanceState
deriving DecidableEq

/-- One tick of the `detect` loop: either the detector reported no face, or it
produced a `Metrics` value and the two `isEyeOpen` flags. -/
inductive TickInput
  | noFace
  | face (m : Metrics) (leftOpen rightOpen : Bool)

/-- Initial `guidanceState` of CameraView.tsx (all axes ok, `hold` false). -/
def initGuidance : GuidanceState :=
  { pitch := .ok, yaw := .ok, roll := .ok, distance := .ok, center := .ok,
    eyes := .ok, hold := false }

def initState : SessionState := { status := .idle, samples := [], guidance := initGuidance }

/-- `samplingProgress` as maintained by `detect`: `(count / REQUIRED_SAMPLES) * 100`. -/
def samplingProgress (s : SessionState) : ℚ :=
  ((s.samples.length : ℚ) / (REQUIRED_SAMPLES : ℚ)) * 100

/-- The capture logic of one `detect` tick (CameraView.tsx lines 389-509):
on a face tick, compute guidance; on a perfect tick (unless already complete)
set `hold`, push the sample and complete at `REQUIRED_SAMPLES`, invoking the
Aggregator once; otherwise reset to idle exactly when sampling and the
distance or center axis is not ok; a no-face tick always resets to idle. -/
def detectStep (M : JsMath) (s : SessionState) (inp : TickInput) :
    SessionState × Option (Except AggError Metrics × List Metrics) :=
  match inp with
  | .noFace => ({ status := .idle, samples := [], guidance := s.guidance }, none)
  | .face m leftOpen rightOpen =>
    let g := evalGuidance m leftOpen rightOpen
    if IsPerfect g ∧ s.status ≠ .complete then
      let g2 := { g with hold := true }
      let samples := s.samples ++ [m]
      if REQUIRED_SAMPLES ≤ samples.length then
        ({ status := .complete, samples := samples, guidance := g2 },
          some (averageMetrics M.sqrt samples, samples))
      else
        ({ status := .sampling, samples := samples, guidance := g2 }, none)
    else
      if s.status = .sampling ∧ (g.distance ≠ .ok ∨ g.center ≠ .ok) then
        ({ status := .idle, samples := [], guidance := g }, none)
      else
        ({ s with guidance := g }, none)

/-- Iterated `detect` ticks (states only). -/
def runTicks (M : JsMath) (s : SessionState) (ticks : List TickInput) : SessionState :=
  ticks.foldl (fun st t => (detectStep M st t).1) s

lemma runTicks_append (M : JsMath) (s : SessionState) (l1 l2 : List TickInput) :
    runTicks M s (l1 ++ l2) = runTicks M (runTicks M s l1) l2 := by
  unfold runTicks
  exact List.foldl_append _ _ _ _

/-- A "perfect alignment" sample with a chosen ipd value (all pose axes
neutral, distance and centering in range). -/
def mSample (v : ℚ) : Metrics :=
  { ipd := v, leftPd := v/2, rightPd := v/2, distance := 30, lighting := 100,
    accuracy := 100, roll := 0, yaw := 0, pitch := 0, faceY := 1/2, stability := 100 }

/-- Guidance with every axis ok and `hold` set. -/
def gHold : GuidanceState :=
  { pitch := .ok, yaw := .ok, roll := .ok, distance := .ok, center := .ok,
    eyes := .ok, hold := true }

lemma evalGuidance_mSample (v : ℚ) : evalGuidance (mSample v) true true = initGuidance := by
  unfold evalGuidance mSample initGuidance classifyPitch classifyYaw classifyRoll
    classifyDistance classifyCenter classifyEyes
  norm_num [PITCH_MIN, PITCH_MAX, YAW_THRESHOLD, ROLL_THRESHOLD,
    MIN_DISTANCE_CM, MAX_DISTANCE_CM, CENTER_TOLERANCE]

lemma isPerfect_mSample (v : ℚ) : IsPerfect (evalGuidance (mSample v) true true) := by
  rw [evalGuidance_mSample]
  exact ⟨rfl, rfl, rfl, rfl, rfl, rfl⟩

lemma runTicks_cons (M : JsMath) (s : SessionState) (t : TickInput) (ts : List TickInput) :
    runTicks M s (t :: ts) = runTicks M (detectStep M s t).1 ts := rfl

lemma detectStep_mSample_below (M : JsMath) (st : SessionState) (v : ℚ)
    (hs : st.status ≠ .complete) (hlen : st.samples.length + 1 < 100) :
    (detectStep M st (.face (mSample v) true true)).1 =
      { status := .sampling, samples := st.samples ++ [mSample v], guidance := gHold } := by
  simp only [detectStep]
  rw [if_pos ⟨isPerfect_mSample v, hs⟩]
  rw [if_neg (by simp only [REQUIRED_SAMPLES, List.length_append, List.length_cons,
    List.length_nil]; omega)]
  simp only [evalGuidance_mSample]
  rfl

lemma detectStep_mSample_complete (M : JsMath) (st : SessionState) (v : ℚ)
    (hs : st.status ≠ .complete) (hlen : 100 ≤ st.samples.length + 1) :
    (detectStep M st (.face (mSample v) true true)).1 =
      { status := .complete, samples := st.samples ++ [mSample v], guidance := gHold } := by
  simp only [detectStep]
  rw [if_pos ⟨isPerfect_mSample v, hs⟩]
  rw [if_pos (by simp only [REQUIRED_SAMPLES, List.length_append, List.length_cons,
    List.length_nil]; omega)]
  simp only [evalGuidance_mSample]
  rfl

lemma runTicks_mSample (M : JsMath) (v : ℚ) (n : ℕ) (st : SessionState)
    (hs : st.status = .sampling) (hg : st.guidance = gHold)
    (hlen : st.samples.length + n < 100) :
    runTicks M st (List.replicate n (.face (mSample v) true true)) =
      { status := .sampling, samples := st.samples ++ List.replicate n (mSample v),
        guidance := gHold } := by
  induction n generalizing st with
  | zero =>
    obtain ⟨a, b, c⟩ := st
    dsimp only at hs hg
    subst hs
    subst hg
    simp [runTicks]
  | succ k ih =>
    have hlen2 : (st.samples ++ [mSample v]).length + k < 100 := by
      simp only [List.length_append, List.length_cons, List.length_nil]
      omega
    rw [List.replicate_succ, runTicks_cons,
      detectStep_mSample_below M st v (by rw [hs]; simp) (by omega)]
    rw [ih _ rfl rfl hlen2]
    simp [List.append_assoc, List.replicate_succ, List.singleton_append]

/-- C2 (amended): a face tick moves the session into Complete exactly when it
was already Complete, or the tick is perfect, the session is not yet Complete
and the post-append sample count reaches `REQUIRED_SAMPLES`; no standard
deviation condition is consulted. -/
theorem C2_thm (M : JsMath) (s : SessionState) (m : Metrics) (l r : Bool) :
    (detectStep M s (.face m l r)).1.status = .complete ↔
      (s.status = .complete ∨
        (IsPerfect (evalGuidance m l r) ∧ s.status ≠ .complete ∧
          REQUIRED_SAMPLES ≤ s.samples.length + 1)) := by
  simp only [detectStep]
  split_ifs with hP hLen hRs
  · exact iff_of_true rfl
      (Or.inr ⟨hP.1, hP.2, by simpa [List.length_append] using hLen⟩)
  · refine iff_of_false (by simp) ?_
    rintro (hc | ⟨_, _, hlen2⟩)
    · exact hP.2 hc
    · exact hLen (by simpa [List.length_append] using hlen2)
  · refine iff_of_false (by simp) ?_
    rintro (hc | hand)
    · exact absurd (hRs.1.symm.trans hc) (by simp)
    · exact hP ⟨hand.1, hand.2.1⟩
  · constructor
    · exact fun hc => Or.inl hc
    · rintro (hc | hand)
      · exact hc
      · exact absurd ⟨hand.1, hand.2.1⟩ hP

/-- The C2 counterexample run: 50 perfect ticks at ipd 60 mm then 50 perfect
ticks at ipd 70 mm. -/
def c2Ticks : List TickInput :=
  List.replicate 50 (.face (mSample 60) true true) ++
    List.replicate 50 (.face (mSample 70) true true)

lemma getVariance_c2 :
    getVariance (List.replicate 50 (60:ℚ) ++ List.replicate 50 70) = 25 := by
  unfold getVariance
  simp only [List.map_append, List.map_replicate, List.sum_append, List.sum_replicate,
    List.length_append, List.length_replicate, nsmul_eq_mul]
  norm_num

/-- Counterexample for C2 as stated: starting from the initial state, 100
consecutive perfect ticks whose ipd alternates between 60 mm and 70 mm drive
the session to Complete although the buffer's ipd variance is 25 mm², i.e.
stdDev = 5 mm, far above the spec's strict threshold of 0.6 mm — the sample
count alone completed the session. -/
theorem C2_cex :
    (runTicks mathA initState c2Ticks).status = .complete ∧
      ((6/10 : ℚ)) ^ 2 <
        getVariance ((runTicks mathA initState c2Ticks).samples.map (·.ipd)) := by
  have h1 : (detectStep mathA initState (TickInput.face (mSample 60) true true)).1 =
      { status := .sampling, samples := [mSample 60], guidance := gHold } := by
    rw [detectStep_mSample_below mathA initState 60 (by simp [initState])
      (by norm_num [initState])]
    simp [initState]
  have h2 : runTicks mathA
      { status := .sampling, samples := [mSample 60], guidance := gHold }
      (List.replicate 49 (TickInput.face (mSample 60) true true)) =
      { status := .sampling, samples := List.replicate 50 (mSample 60),
        guidance := gHold } := by
    rw [runTicks_mSample mathA 60 49 _ rfl rfl (by norm_num)]
    simp [List.singleton_append, ← List.replicate_succ]
  have h3 : runTicks mathA
      { status := .sampling, samples := List.replicate 50 (mSample 60),
        guidance := gHold }
      (List.replicate 49 (TickInput.face (mSample 70) true true)) =
      { status := .sampling,
        samples := List.replicate 50 (mSample 60) ++ List.replicate 49 (mSample 70),
        guidance := gHold } := by
    rw [runTicks_mSample mathA 70 49 _ rfl rfl (by norm_num)]
  have h4 : (detectStep mathA
      { status := .sampling,
        samples := List.replicate 50 (mSample 60) ++ List.replicate 49 (mSample 70),
        guidance := gHold } (TickInput.face (mSample 70) true true)).1 =
      { status := .complete,
        samples := List.replicate 50 (mSample 60) ++ List.replicate 50 (mSample 70),
        guidance := gHold } := by
    rw [detectStep_mSample_complete mathA _ 70 (by simp)
      (by simp only [List.length_append, List.length_replicate]; omega)]
    simp [List.append_assoc, ← List.replicate_succ']
  have hfinal : runTicks mathA initState c2Ticks =
      { status := .complete,
        samples := List.replicate 50 (mSample 60) ++ List.replicate 50 (mSample 70),
        guidance := gHold } := by
    unfold c2Ticks
    rw [runTicks_append]
    rw [show List.replicate 50 (TickInput.face (mSample 60) true true) =
      TickInput.face (mSample 60) true true ::
        List.replicate 49 (TickInput.face (mSample 60) true true) from rfl]
    rw [runTicks_cons, h1, h2]
    rw [show List.replicate 50 (TickInput.face (mSample 70) true true) =
      List.replicate 49 (TickInput.face (mSample 70) true true) ++
        [TickInput.face (mSample 70) true true] from (List.replicate_succ' _ _).symm ▸ rfl]
    rw [runTicks_append, h3]
    rw [show runTicks mathA
      { status := CaptureStatus.sampling,
        samples := List.replicate 50 (mSample 60) ++ List.replicate 49 (mSample 70),
        guidance := gHold } [TickInput.face (mSample 70) true true] =
      (detectStep mathA
        { status := CaptureStatus.sampling,
          samples := List.replicate 50 (mSample 60) ++ List.replicate 49 (mSample 70),
          guidance := gHold } (TickInput.face (mSample 70) true true)).1 from rfl]
    rw [h4]
  rw [hfinal]
  refine ⟨rfl, ?_⟩
  have hmap : ((List.replicate 50 (mSample 60) ++ List.replicate 50 (mSample 70)).map
      (·.ipd)) = List.replicate 50 (60:ℚ) ++ List.replicate 50 70 := by
    simp [List.map_append, List.map_replicate, mSample]
  rw [hmap, getVariance_c2]
  norm_num

/-- C4 (amended): while Sampling, a tick that loses hold resets the session to
Idle (buffer cleared, progress zeroed) exactly when the distance or center
axis is not ok; when both of those axes are ok — e.g. hold lost only to yaw,
roll, pitch, or eye-closure — the buffer and progress are left unchanged. -/
theorem C4_thm (M : JsMath) (s : SessionState) (m : Metrics) (l r : Bool)
    (hs : s.status = .sampling)
    (hnp : ¬ IsPerfect (evalGuidance m l r)) :
    (((evalGuidance m l r).distance ≠ .ok ∨ (evalGuidance m l r).center ≠ .ok) →
      (detectStep M s (.face m l r)).1.status = .idle ∧
        (detectStep M s (.face m l r)).1.samples = [] ∧
        samplingProgress (detectStep M s (.face m l r)).1 = 0) ∧
    (((evalGuidance m l r).distance = .ok ∧ (evalGuidance m l r).center = .ok) →
      (detectStep M s (.face m l r)).1.status = .sampling ∧
        (detectStep M s (.face m l r)).1.samples = s.samples ∧
        samplingProgress (detectStep M s (.face m l r)).1 = samplingProgress s) := by
  constructor
  · intro hlost
    have hstep : (detectStep M s (.face m l r)).1 =
        { status := .idle, samples := [], guidance := evalGuidance m l r } := by
      simp only [detectStep]
      rw [if_neg (fun hc => hnp hc.1), if_pos ⟨hs, hlost⟩]
    rw [hstep]
    refine ⟨rfl, rfl, ?_⟩
    simp [samplingProgress]
  · intro hok
    have hstep : (detectStep M s (.face m l r)).1 =
        { s with guidance := evalGuidance m l r } := by
      simp only [detectStep]
      rw [if_neg (fun hc => hnp hc.1),
        if_neg (by rintro ⟨_, h | h⟩; exacts [h hok.1, h hok.2])]
    rw [hstep]
    exact ⟨hs, rfl, rfl⟩

/-- A measurement misaligned only in yaw (yaw = 0.5, all other axes fine). -/
def mYawOff : Metrics :=
  { ipd := 63, leftPd := 31, rightPd := 32, distance := 30, lighting := 100,
    accuracy := 100, roll := 0, yaw := 1/2, pitch := 0, faceY := 1/2, stability := 100 }

lemma evalGuidance_mYawOff : evalGuidance mYawOff true true =
    { pitch := .ok, yaw := .left, roll := .ok, distance := .ok, center := .ok,
      eyes := .ok, hold := false } := by
  unfold evalGuidance mYawOff classifyPitch classifyYaw classifyRoll
    classifyDistance classifyCenter classifyEyes
  norm_num [PITCH_MIN, PITCH_MAX, YAW_THRESHOLD, ROLL_THRESHOLD,
    MIN_DISTANCE_CM, MAX_DISTANCE_CM, CENTER_TOLERANCE]

def c4State : SessionState :=
  { status := .sampling, samples := [mSample 60], guidance := gHold }

/-- Counterexample for C4 as stated: in Sampling, a tick whose hold loss is due
only to yaw misalignment (yaw axis not ok, distance and center ok) leaves the
buffer, the progress, and the Sampling status unchanged — it does not reset
the session to Idle as the claim requires for yaw loss. -/
theorem C4_cex :
    (detectStep mathA c4State (.face mYawOff true true)).1.status = .sampling ∧
      (detectStep mathA c4State (.face mYawOff true true)).1.samples = c4State.samples ∧
      samplingProgress (detectStep mathA c4State (.face mYawOff true true)).1 =
        samplingProgress c4State ∧
      (evalGuidance mYawOff true true).yaw ≠ .ok ∧
      (evalGuidance mYawOff true true).distance = .ok ∧
      (evalGuidance mYawOff true true).center = .ok := by
  have hnp : ¬ IsPerfect (evalGuidance mYawOff true true) := by
    intro hc
    have := hc.2.1
    rw [evalGuidance_mYawOff] at this
    exact absurd this (by simp)
  have hstep : (detectStep mathA c4State (.face mYawOff true true)).1 =
      { c4State with guidance := evalGuidance mYawOff true true } := by
    simp only [detectStep]
    rw [if_neg (fun hc => hnp hc.1),
      if_neg (by rintro ⟨_, h | h⟩ <;> rw [evalGuidance_mYawOff] at h <;> exact h rfl)]
  rw [hstep]
  refine ⟨rfl, rfl, rfl, ?_, ?_, ?_⟩
  · rw [evalGuidance_mYawOff]
    simp
  · rw [evalGuidance_mYawOff]
  · rw [evalGuidance_mYawOff]

def c4StateW : SessionState :=
  { status := .sampling, samples := [mSample 63], guidance := gHold }

/-- Witness for C4 at a concrete eye-closure tick (left eye closed, distance
and center ok): the session keeps its buffer. -/
theorem C4_witness :
    (((evalGuidance (mSample 63) false true).distance ≠ .ok ∨
        (evalGuidance (mSample 63) false true).center ≠ .ok) →
      (detectStep mathA c4StateW (.face (mSample 63) false true)).1.status = .idle ∧
        (detectStep mathA c4StateW (.face (mSample 63) false true)).1.samples = [] ∧
        samplingProgress (detectStep mathA c4StateW (.face (mSample 63) false true)).1 = 0) ∧
    (((evalGuidance (mSample 63) false true).distance = .ok ∧
        (evalGuidance (mSample 63) false true).center = .ok) →
      (detectStep mathA c4StateW (.face (mSample 63) false true)).1.status = .sampling ∧
        (detectStep mathA c4StateW (.face (mSample 63) false true)).1.samples = c4StateW.samples ∧
        samplingProgress (detectStep mathA c4StateW (.face (mSample 63) false true)).1 =
          samplingProgress c4StateW) :=
  C4_thm mathA c4StateW (mSample 63) false true rfl
    (by intro hc
        have := hc.2.2.2.2.2
        simp [evalGuidance, classifyEyes] at this)

/-- Modelled from the spec: the Guidance Evaluator hold predicate of §4.5 with
the spec's thresholds — roll ±2.5°, yaw ±0.05 normalized, pitch ∈ [−0.10, 0.10],
center tolerance |faceY − 0.5| < 0.15, the configured distance bounds, the
lighting floor, and both eyes open. -/
def specHold (m : Metrics) (leftOpen rightOpen : Bool) : Prop :=
  |m.roll| ≤ 5/2 ∧ |m.yaw| ≤ 5/100 ∧ (-(10/100) ≤ m.pitch ∧ m.pitch ≤ 10/100) ∧
    |m.faceY - 1/2| < 15/100 ∧
    (MIN_DISTANCE_CM ≤ m.distance ∧ m.distance ≤ MAX_DISTANCE_CM) ∧
    60 ≤ m.lighting ∧ leftOpen = true ∧ rightOpen = true

/-- A measurement with yaw 0.055: within the code's 0.06 yaw threshold but
outside the spec's 0.05. -/
def m6 : Metrics :=
  { ipd := 63, leftPd := 31, rightPd := 32, distance := 30, lighting := 100,
    accuracy := 100, roll := 0, yaw := 11/200, pitch := 0, faceY := 1/2, stability := 100 }

/-- Counterexample for C6 as stated: at yaw = 0.055 the code's guidance sets
`hold` (its yaw threshold is 0.06, not the claimed 0.05), while the spec's
nine-axis predicate with yaw ±0.05 is false — the claimed equivalence fails. -/
theorem C6_cex :
    ¬ (((detectStep mathA initState (.face m6 true true)).1.guidance.hold = true) ↔
        specHold m6 true true) := by
  have hg6 : evalGuidance m6 true true = initGuidance := by
    unfold evalGuidance m6 initGuidance classifyPitch classifyYaw classifyRoll
      classifyDistance classifyCenter classifyEyes
    norm_num [PITCH_MIN, PITCH_MAX, YAW_THRESHOLD, ROLL_THRESHOLD,
      MIN_DISTANCE_CM, MAX_DISTANCE_CM, CENTER_TOLERANCE]
  have hstep : (detectStep mathA initState (.face m6 true true)).1 =
      { status := .sampling, samples := initState.samples ++ [m6],
        guidance := { evalGuidance m6 true true with hold := true } } := by
    simp only [detectStep]
    rw [if_pos ⟨by rw [hg6]; exact ⟨rfl, rfl, rfl, rfl, rfl, rfl⟩, by simp [initState]⟩]
    rw [if_neg (by norm_num [initState, REQUIRED_SAMPLES])]
  intro hiff
  have hspec : specHold m6 true true := hiff.mp (by rw [hstep])
  have hnot : ¬ specHold m6 true true := by
    intro h
    have hy := h.2.1
    simp only [m6] at hy
    rw [abs_of_nonneg (by norm_num)] at hy
    norm_num at hy
  exact hnot hspec

/-- C6 (amended): `hold` is reported true iff the session is not Complete and
every code axis is ok, with the code's thresholds: roll ±2.5°, yaw ±0.06,
pitch ∈ [−0.12, 0.12], |faceY − 0.5| < 0.15, distance ∈ [20, 45] cm, and both
eyes open; lighting and glare play no part. -/
theorem C6_thm (M : JsMath) (s : SessionState) (m : Metrics) (l r : Bool) :
    ((detectStep M s (.face m l r)).1.guidance.hold = true) ↔
      (s.status ≠ .complete ∧
        ((-(5/2) ≤ m.roll ∧ m.roll ≤ 5/2) ∧
          (-(6/100) ≤ m.yaw ∧ m.yaw ≤ 6/100) ∧
          (-(12/100) ≤ m.pitch ∧ m.pitch ≤ 12/100) ∧
          |m.faceY - 1/2| < 15/100 ∧
          (20 ≤ m.distance ∧ m.distance ≤ 45) ∧
          l = true ∧ r = true)) := by
  simp only [detectStep]
  split_ifs with hP hLen hRs
  · exact iff_of_true rfl ⟨hP.2, (isPerfect_axes_iff m l r).mp hP.1⟩
  · exact iff_of_true rfl ⟨hP.2, (isPerfect_axes_iff m l r).mp hP.1⟩
  · refine iff_of_false (by simp [evalGuidance]) ?_
    exact fun hh => hP ⟨(isPerfect_axes_iff m l r).mpr hh.2, hh.1⟩
  · refine iff_of_false (by simp [evalGuidance]) ?_
    exact fun hh => hP ⟨(isPerfect_axes_iff m l r).mpr hh.2, hh.1⟩

end IpdMeasure
